import Mathlib

/-!
Shallow embedding of `src/app.py`: a Streamlit chat front-end around the
Gemini `generateContent` HTTP endpoint.  The embedding models

* the JSON shapes the code reads from a successful HTTP response
  (candidates, content parts, grounding metadata), with `Option` for
  possibly-absent dictionary keys;
* the payload built by `generate_content_with_retry` (contents converted
  from history plus the new user turn, the google_search tool, the fixed
  system instruction);
* the retry loop of `generate_content_with_retry` as a recursion over the
  remaining attempt budget, driven by an environment `env : Nat → Outcome`
  giving the outcome of each HTTP attempt (network exception, HTTP status
  error, or a successful body);
* the Streamlit interaction step that appends the user prompt, truncates
  history to the last 5 prior messages, dispatches, and appends the
  assistant reply.

Python dictionary-key truthiness (`if candidate and ...`, `if sources:`)
is modelled explicitly, and the uncaught `IndexError` on `[0]` applied to
a present-but-empty list is modelled as an `Except`-level error that the
loop propagates as `RunResult.raised`.
-/

/-- A chat message as stored in `st.session_state.messages`:
`{"role": ..., "content": ...}`. -/
structure Message where
  role : String
  content : String
deriving DecidableEq, Repr

/-- One element of a candidate's `content.parts`; the `text` key may be
absent. -/
structure RespPart where
  text : Option String
deriving DecidableEq, Repr

/-- A candidate's `content` dictionary; the `parts` key may be absent. -/
structure Content where
  parts : Option (List RespPart)
deriving DecidableEq, Repr

/-- The `web` dictionary of a grounding attribution; `uri` and `title`
may each be absent. -/
structure Web where
  uri : Option String
  title : Option String
deriving DecidableEq, Repr

/-- One grounding attribution; the `web` key may be absent. -/
structure Attribution where
  web : Option Web
deriving DecidableEq, Repr

/-- `candidate.groundingMetadata`; the `groundingAttributions` key may be
absent. -/
structure GroundingMetadata where
  groundingAttributions : Option (List Attribution)
deriving DecidableEq, Repr

/-- One element of the response's `candidates` list. -/
structure Candidate where
  content : Option Content
  groundingMetadata : Option GroundingMetadata
deriving DecidableEq, Repr

/-- The JSON body of a successful HTTP response, restricted to the keys
the code reads; the `candidates` key may be absent. -/
structure ApiResponse where
  candidates : Option (List Candidate)
deriving DecidableEq, Repr

/-- A source entry produced by the code: `{"uri": ..., "title": ...}`. -/
structure Source where
  uri : String
  title : String
deriving DecidableEq, Repr

/-- The fixed Korean system prompt `SYSTEM_PROMPT` of `app.py`. -/
def SYSTEM_PROMPT : String :=
  "당신은 친절하고 도움이 되는 AI 챗봇입니다. 한국어로 답변하며, 사용자 질문에 대해 간결하고 정확하게 정보를 제공합니다. 가능한 경우, 구글 검색 결과를 활용하여 답변을 보강합니다."

/-- The literal fallback answer returned when parsing finds no text
(line 81: "응답을 생성할 수 없습니다."). -/
def fallback_text : String := "응답을 생성할 수 없습니다."

/-- The literal failure text returned after retry exhaustion
(line 93: "오류: API 호출에 실패했습니다."). -/
def call_failed_text : String := "오류: API 호출에 실패했습니다."

/-- The literal text of the final return after the loop
(line 95: "오류: 알 수 없는 이유로 API 호출에 실패했습니다."). -/
def unknown_failure_text : String := "오류: 알 수 없는 이유로 API 호출에 실패했습니다."

/-- Python truthiness of an optional string-valued key: present and
non-empty. -/
def truthyOptStr : Option String → Bool
  | some s => !s.isEmpty
  | none => false

/-- Python truthiness of a candidate dictionary over the modelled keys:
non-empty as a dictionary. -/
def Candidate.truthy (c : Candidate) : Bool :=
  c.content.isSome || c.groundingMetadata.isSome

/-- The list `candidate.get('content', {}).get('parts', [{}])` after the
two `.get` defaults: `[{}]` when `content` or `parts` is absent, the
actual list otherwise. -/
def partsAfterDefaults (c : Candidate) : List RespPart :=
  match c.content with
  | none => [{ text := none }]
  | some ct =>
    match ct.parts with
    | none => [{ text := none }]
    | some l => l

/-- A Python exception raised by parsing and caught by no handler. -/
inductive PyError where
  | indexError
deriving DecidableEq, Repr

/-- `attr.get('web', {})`. -/
def attrWeb (a : Attribution) : Web :=
  a.web.getD { uri := none, title := none }

/-- The comprehension filter
`attr.get('web', {}).get('uri') and attr.get('web', {}).get('title')`. -/
def attrGood (a : Attribution) : Bool :=
  truthyOptStr (attrWeb a).uri && truthyOptStr (attrWeb a).title

/-- The comprehension body `{"uri": attr['web']['uri'], "title":
attr['web']['title']}` (the filter guarantees both keys exist). -/
def attrToSource (a : Attribution) : Source :=
  { uri := ((attrWeb a).uri).getD "", title := ((attrWeb a).title).getD "" }

/-- Lines 65–77: compute `sources` for a candidate whose text was found.
`sources` stays `[]` unless `groundingMetadata` is truthy and its
`groundingAttributions` value is a truthy (non-empty) list. -/
def extract_sources (c : Candidate) : List Source :=
  match c.groundingMetadata with
  | none => []
  | some gm =>
    match gm.groundingAttributions with
    | none => []
    | some attrs =>
      if attrs.isEmpty then []
      else (attrs.filter attrGood).map attrToSource

/-- Lines 58–81: parse a successful HTTP response body.  Returns the
`(text, sources)` pair, or the fallback pair, or raises `IndexError`
when `[0]` hits a present-but-empty `candidates` or `parts` list. -/
def parse_response (result : ApiResponse) : Except PyError (String × List Source) :=
  match result.candidates with
  | none => .ok (fallback_text, [])
  | some [] => .error .indexError
  | some (c :: _) =>
    if c.truthy then
      match (partsAfterDefaults c).head? with
      | none => .error .indexError
      | some p =>
        match p.text with
        | some t => if !t.isEmpty then .ok (t, extract_sources c) else .ok (fallback_text, [])
        | none => .ok (fallback_text, [])
    else .ok (fallback_text, [])

/-- The outcome of one HTTP attempt, as seen by the `try` block:
a `requests.exceptions.RequestException` that is not an HTTP status error,
a `requests.exceptions.HTTPError` raised by `raise_for_status` with the
response's status code, or a successful response body. -/
inductive Outcome where
  | netFail
  | httpError (status : Nat)
  | success (body : ApiResponse)

/-- How one call of `generate_content_with_retry` ends: a Python `return`
with a `(text, sources)` pair, or an uncaught exception propagating out. -/
inductive RunResult where
  | returned (text : String) (sources : List Source)
  | raised (e : PyError)
deriving DecidableEq, Repr

/-- Observable trace of one call of `generate_content_with_retry`:
how many HTTP attempts were made, the `time.sleep` durations in order,
the status codes reported via `st.error` in the HTTPError handler,
whether control reached the final return after the loop (line 95), and
how the call ended. -/
structure Trace where
  attempts : Nat
  sleeps : List Nat
  reportedHttpErrors : List Nat
  viaFinalReturn : Bool
  result : RunResult
deriving DecidableEq, Repr

/-- Lines 54–95: the retry loop, by recursion on the remaining attempt
budget (`remaining = max_retries - attempt`).  `env i` is the outcome of
the HTTP attempt with loop index `i`. -/
def loopGo (env : Nat → Outcome) (attempt : Nat) : Nat → Trace
  | 0 =>
    { attempts := 0, sleeps := [], reportedHttpErrors := [],
      viaFinalReturn := true, result := .returned unknown_failure_text [] }
  | remaining + 1 =>
    match env attempt with
    | .success body =>
      match parse_response body with
      | .ok (t, s) =>
        { attempts := 1, sleeps := [], reportedHttpErrors := [],
          viaFinalReturn := false, result := .returned t s }
      | .error e =>
        { attempts := 1, sleeps := [], reportedHttpErrors := [],
          viaFinalReturn := false, result := .raised e }
    | .httpError status =>
      { attempts := 1, sleeps := [], reportedHttpErrors := [status],
        viaFinalReturn := true, result := .returned unknown_failure_text [] }
    | .netFail =>
      if remaining = 0 then
        { attempts := 1, sleeps := [], reportedHttpErrors := [],
          viaFinalReturn := false, result := .returned call_failed_text [] }
      else
        let rest := loopGo env (attempt + 1) remaining
        { attempts := rest.attempts + 1, sleeps := 2 ^ attempt :: rest.sleeps,
          reportedHttpErrors := rest.reportedHttpErrors,
          viaFinalReturn := rest.viaFinalReturn, result := rest.result }

/-- One entry of the outbound `contents` list: `{"role": ...,
"parts": [{"text": ...}]}`; each part is modelled by its text. -/
structure ContentEntry where
  role : String
  parts : List String
deriving DecidableEq, Repr

/-- A tool declaration of the payload; the code declares exactly
`{"google_search": {}}`. -/
inductive Tool where
  | google_search
deriving DecidableEq, Repr

/-- The JSON payload of the POST request, restricted to the keys the code
writes; `systemInstruction` is modelled by the texts of its parts. -/
structure Payload where
  contents : List ContentEntry
  tools : List Tool
  systemInstruction : List String
deriving DecidableEq, Repr

/-- Lines 34–43: the `contents` list, built by appending one converted
entry per history message in a loop, then the current user prompt. -/
def build_contents (prompt : String) (history : List Message) : List ContentEntry :=
  let contents :=
    history.foldl (fun acc m => acc ++ [{ role := m.role, parts := [m.content] }]) []
  contents ++ [{ role := "user", parts := [prompt] }]

/-- Lines 46–50: the request payload. -/
def build_payload (prompt : String) (history : List Message) : Payload :=
  { contents := build_contents prompt history,
    tools := [Tool.google_search],
    systemInstruction := [SYSTEM_PROMPT] }

/-- Lines 26–95: `generate_content_with_retry(prompt, history,
max_retries=5)`, returning the payload it sends and the trace of its
retry loop. -/
def generate_content_with_retry (prompt : String) (history : List Message)
    (env : Nat → Outcome) (max_retries : Nat := 5) : Payload × Trace :=
  (build_payload prompt history, loopGo env 0 max_retries)

/-- Line 126: `recent_messages = st.session_state.messages[:-1][-5:]` —
drop the just-appended prompt, keep the last (at most) 5 entries. -/
def recent_messages (messages : List Message) : List Message :=
  let prior := messages.dropLast
  prior.drop (prior.length - 5)

/-- Lines 124–133: `history_for_api`, built by appending a copy of each
recent message in a loop. -/
def history_for_api (messages : List Message) : List Message :=
  (recent_messages messages).foldl
    (fun acc m => acc ++ [{ role := m.role, content := m.content }]) []

/-- Line 146 / 152: the markdown link rendered for one source. -/
def source_line (s : Source) : String :=
  "- [" ++ s.title ++ "](" ++ s.uri ++ ")"

/-- Line 152: `source_links`, the block appended to the stored response
when sources exist. -/
def source_links (sources : List Source) : String :=
  "\n\n---\n**참고 출처:**\n" ++ String.intercalate "\n" (sources.map source_line)

/-- Lines 149–153: the assistant content stored in the transcript —
the response text, with `source_links` appended when `sources` is truthy
(non-empty). -/
def full_response_content (text : String) (sources : List Source) : String :=
  if sources.isEmpty then text else text ++ source_links sources

/-- Lines 113–155: one user interaction — append the user message,
build the truncated history, dispatch, and (when the dispatcher returns)
append the assistant message.  Returns the new transcript and the
dispatch trace. -/
def chat_step (messages : List Message) (prompt : String) (env : Nat → Outcome) :
    List Message × Trace :=
  let messages1 := messages ++ [{ role := "user", content := prompt }]
  let hist := history_for_api messages1
  let tr := (generate_content_with_retry prompt hist env 5).2
  match tr.result with
  | .returned text sources =>
    (messages1 ++ [{ role := "assistant",
                     content := full_response_content text sources }], tr)
  | .raised _ => (messages1, tr)

/-- Modelled from the spec: the error-classification table of the
SDK-based earlier variants of this repository, which are not under
`src/`.  Per the spec, HTTP 401 maps to `Unauthenticated`, 403 to
`PermissionDenied`, 429 to `ResourceExhausted`, and any other API error
status to `GenericApiError`. -/
inductive ApiErrorKind where
  | Unauthenticated
  | PermissionDenied
  | ResourceExhausted
  | GenericApiError
  | NetworkError
  | Unknown
deriving DecidableEq, Repr

/-- Modelled from the spec: classification of an HTTP error status into
an `ApiErrorKind`; the classifier itself lives in the SDK-based earlier
variants of this repository, absent from `src/`. -/
def classify_http_status (status : Nat) : ApiErrorKind :=
  if status = 401 then .Unauthenticated
  else if status = 403 then .PermissionDenied
  else if status = 429 then .ResourceExhausted
  else .GenericApiError

/-! ## Concrete sample values used by witnesses -/

/-- A successful response body with one candidate whose first part text
is "ok" and no grounding metadata. -/
def okBody : ApiResponse :=
  { candidates := some [{ content := some { parts := some [{ text := some "ok" }] },
                          groundingMetadata := none }] }

/-- A response body whose `candidates` key holds an empty list. -/
def emptyCandidatesBody : ApiResponse := { candidates := some [] }

/-- An environment where every attempt fails at network level. -/
def envAllNetFail : Nat → Outcome := fun _ => Outcome.netFail

/-- An environment with three network failures, then parsable successes. -/
def envThreeFailThenOk : Nat → Outcome :=
  fun i => if i < 3 then Outcome.netFail else Outcome.success okBody

/-- An environment where every attempt raises an HTTP 500 error. -/
def envHttp500 : Nat → Outcome := fun _ => Outcome.httpError 500

/-- An environment where every attempt raises an HTTP 429 error. -/
def envHttp429 : Nat → Outcome := fun _ => Outcome.httpError 429

/-- An environment where every attempt succeeds with `okBody`. -/
def envOk : Nat → Outcome := fun _ => Outcome.success okBody

/-- An environment where every attempt succeeds with a body whose
`candidates` list is present but empty. -/
def envEmptyCandidates : Nat → Outcome :=
  fun _ => Outcome.success emptyCandidatesBody

/-- A grounding attribution with both uri and title. -/
def attrFull : Attribution := { web := some { uri := some "http://a", title := some "A" } }

/-- A grounding attribution with a uri but no title. -/
def attrNoTitle : Attribution := { web := some { uri := some "http://b", title := none } }

/-- A grounding attribution with a title but no uri. -/
def attrNoUri : Attribution := { web := some { uri := none, title := some "B" } }

/-- A grounding attribution with no `web` key. -/
def attrNoWeb : Attribution := { web := none }

/-- The sample attribution list used by witnesses. -/
def fourAttrs : List Attribution := [attrFull, attrNoTitle, attrNoUri, attrNoWeb]

/-- Grounding metadata holding `fourAttrs`. -/
def gmFour : GroundingMetadata := { groundingAttributions := some fourAttrs }

/-- The content of the sample candidates: one part with text "ok". -/
def okContent : Content := { parts := some [{ text := some "ok" }] }

/-- A candidate with text "ok" and the four sample attributions. -/
def candWithAttrs : Candidate :=
  { content := some okContent, groundingMetadata := some gmFour }

/-- A candidate with text "ok" and no grounding metadata. -/
def candNoGm : Candidate := { content := some okContent, groundingMetadata := none }

/-- A six-entry prior transcript used by the truncation witness. -/
def sixMessages : List Message :=
  [{ role := "user", content := "m1" }, { role := "assistant", content := "m2" },
   { role := "user", content := "m3" }, { role := "assistant", content := "m4" },
   { role := "user", content := "m5" }, { role := "assistant", content := "m6" }]

/-! ## Helper lemmas -/

theorem foldl_append_convert :
    ∀ (l : List Message) (acc : List ContentEntry),
    l.foldl (fun acc m => acc ++ [{ role := m.role, parts := [m.content] }]) acc =
      acc ++ l.map (fun m => { role := m.role, parts := [m.content] }) := by
  intro l
  induction l with
  | nil => intro acc; simp
  | cons x xs ih => intro acc; simp [ih]

theorem foldl_append_copy :
    ∀ (l acc : List Message),
    l.foldl (fun acc m => acc ++ [{ role := m.role, content := m.content }]) acc =
      acc ++ l := by
  intro l
  induction l with
  | nil => intro acc; simp
  | cons x xs ih =>
    intro acc
    rw [List.foldl_cons, ih]
    cases x
    simp

theorem history_for_api_eq (messages : List Message) :
    history_for_api messages = recent_messages messages := by
  unfold history_for_api
  rw [foldl_append_copy]
  simp

/-- Skipping a prefix of `k` network failures: the loop sleeps
`2 ^ attempt, …, 2 ^ (attempt + k - 1)` and then behaves as the loop
started at `attempt + k` with `k` fewer remaining attempts. -/
theorem loopGo_skip (env : Nat → Outcome) :
    ∀ (k attempt remaining : Nat), k < remaining →
    (∀ i, i < k → env (attempt + i) = .netFail) →
    loopGo env attempt remaining =
      { loopGo env (attempt + k) (remaining - k) with
        attempts := k + (loopGo env (attempt + k) (remaining - k)).attempts,
        sleeps := (List.range k).map (fun j => 2 ^ (attempt + j)) ++
          (loopGo env (attempt + k) (remaining - k)).sleeps } := by
  intro k
  induction k with
  | zero =>
    intro attempt remaining _ _
    simp
  | succ k ih =>
    intro attempt remaining hk henv
    obtain ⟨r, rfl⟩ : ∃ r, remaining = r + 1 := ⟨remaining - 1, by omega⟩
    have h0 : env attempt = .netFail := by simpa using henv 0 (by omega)
    have hr : ¬ r = 0 := by omega
    have hshift : ∀ i, i < k → env (attempt + 1 + i) = .netFail := by
      intro i hi
      have := henv (i + 1) (by omega)
      simpa [Nat.add_assoc, Nat.add_comm 1 i] using this
    have hrec := ih (attempt + 1) r (by omega) hshift
    show loopGo env attempt (r + 1) = _
    rw [loopGo, h0]
    simp only [hr, if_false, hrec]
    have ha : attempt + 1 + k = attempt + (k + 1) := by omega
    have hb : r - k = r + 1 - (k + 1) := by omega
    have hc : (List.range (k + 1)).map (fun j => 2 ^ (attempt + j)) =
        2 ^ attempt :: (List.range k).map (fun j => 2 ^ (attempt + 1 + j)) := by
      rw [List.range_succ_eq_map]
      simp only [List.map_cons, List.map_map]
      refine congrArg₂ _ (by rw [Nat.add_zero]) (List.map_congr_left ?_)
      intro j _
      simp only [Function.comp_apply]
      congr 1
      omega
    rw [ha, hb, hc]
    simp only [Trace.mk.injEq, List.cons_append, and_true, true_and, eq_self_iff_true]
    omega

/-- The last allowed attempt failing at network level returns the
literal failure text (the `else` branch of the `RequestException`
handler). -/
theorem loopGo_netFail_last (env : Nat → Outcome) (attempt : Nat)
    (h : env attempt = .netFail) :
    loopGo env attempt 1 =
      { attempts := 1, sleeps := [], reportedHttpErrors := [],
        viaFinalReturn := false, result := .returned call_failed_text [] } := by
  rw [loopGo, h]
  simp

/-- An attempt hitting an HTTP status error reports it and breaks to the
final return. -/
theorem loopGo_httpError (env : Nat → Outcome) (attempt remaining status : Nat)
    (hrem : 1 ≤ remaining) (h : env attempt = .httpError status) :
    loopGo env attempt remaining =
      { attempts := 1, sleeps := [], reportedHttpErrors := [status],
        viaFinalReturn := true, result := .returned unknown_failure_text [] } := by
  obtain ⟨r, rfl⟩ : ∃ r, remaining = r + 1 := ⟨remaining - 1, by omega⟩
  rw [loopGo, h]

/-- An attempt whose body parses successfully returns it at once. -/
theorem loopGo_success (env : Nat → Outcome) (attempt remaining : Nat)
    (body : ApiResponse) (t : String) (s : List Source) (hrem : 1 ≤ remaining)
    (h : env attempt = .success body) (hp : parse_response body = .ok (t, s)) :
    loopGo env attempt remaining =
      { attempts := 1, sleeps := [], reportedHttpErrors := [],
        viaFinalReturn := false, result := .returned t s } := by
  obtain ⟨r, rfl⟩ : ∃ r, remaining = r + 1 := ⟨remaining - 1, by omega⟩
  rw [loopGo, h]
  simp [hp]

/-- An attempt whose body makes parsing raise propagates the exception. -/
theorem loopGo_raise (env : Nat → Outcome) (attempt remaining : Nat)
    (body : ApiResponse) (e : PyError) (hrem : 1 ≤ remaining)
    (h : env attempt = .success body) (hp : parse_response body = .error e) :
    loopGo env attempt remaining =
      { attempts := 1, sleeps := [], reportedHttpErrors := [],
        viaFinalReturn := false, result := .raised e } := by
  obtain ⟨r, rfl⟩ : ∃ r, remaining = r + 1 := ⟨remaining - 1, by omega⟩
  rw [loopGo, h]
  simp [hp]

/-! ## Claim theorems -/

/-- Claim C1: network-level failures are retried with exponential
backoff.  First conjunct: `max_retries` consecutive network failures
yield exactly `max_retries` attempts, sleeps `2^0, …, 2^(max_retries-2)`,
and the literal failure text with empty sources, with no further attempt.
Second conjunct: 3 network failures followed by a parsable success under
`max_retries = 5` yield the successful result after exactly the 3 backoff
sleeps 1s, 2s, 4s. -/
theorem C1_network_retry_backoff (prompt : String) (history : List Message)
    (env env2 : Nat → Outcome) (max_retries : Nat) (body : ApiResponse)
    (t : String) (s : List Source) :
    (1 ≤ max_retries →
      (∀ i, i < max_retries → env i = .netFail) →
      (generate_content_with_retry prompt history env max_retries).2 =
        { attempts := max_retries,
          sleeps := (List.range (max_retries - 1)).map (fun j => 2 ^ j),
          reportedHttpErrors := [], viaFinalReturn := false,
          result := .returned call_failed_text [] }) ∧
    ((∀ i, i < 3 → env2 i = .netFail) → env2 3 = .success body →
      parse_response body = .ok (t, s) →
      (generate_content_with_retry prompt history env2 5).2 =
        { attempts := 4, sleeps := [1, 2, 4], reportedHttpErrors := [],
          viaFinalReturn := false, result := .returned t s }) := by
  constructor
  · intro h1 hall
    show loopGo env 0 max_retries = _
    rw [loopGo_skip env (max_retries - 1) 0 max_retries (by omega)
      (fun i hi => by simpa using hall i (by omega))]
    have e2 : max_retries - (max_retries - 1) = 1 := by omega
    rw [e2, loopGo_netFail_last env (0 + (max_retries - 1))
      (hall (0 + (max_retries - 1)) (by omega))]
    simp only [Trace.mk.injEq, List.append_nil, Nat.zero_add, and_true, true_and]
    omega
  · intro hpref hsucc hparse
    show loopGo env2 0 5 = _
    rw [loopGo_skip env2 3 0 5 (by omega) (fun i hi => by simpa using hpref i hi)]
    rw [loopGo_success env2 (0 + 3) (5 - 3) body t s (by omega)
      (by simpa using hsucc) hparse]
    simp [Trace.mk.injEq, List.range_succ]

/-- Claim C2: an HTTP error status on any attempt (here: attempt `k`,
after `k` transient network failures) is reported at once and never
retried — the trace shows exactly `k + 1` attempts, only the `k` backoff
sleeps from before the error, the single reported status, and the break
to the final return. -/
theorem C2_http_error_no_retry (prompt : String) (history : List Message)
    (env : Nat → Outcome) (max_retries k status : Nat) :
    k < max_retries →
    (∀ i, i < k → env i = .netFail) →
    env k = .httpError status →
    (generate_content_with_retry prompt history env max_retries).2 =
      { attempts := k + 1,
        sleeps := (List.range k).map (fun j => 2 ^ j),
        reportedHttpErrors := [status],
        viaFinalReturn := true,
        result := .returned unknown_failure_text [] } := by
  intro hk hpref herr
  show loopGo env 0 max_retries = _
  rw [loopGo_skip env k 0 max_retries hk (fun i hi => by simpa using hpref i hi)]
  rw [loopGo_httpError env (0 + k) (max_retries - k) status (by omega)
    (by simpa using herr)]
  simp [Trace.mk.injEq, Nat.add_comm]

/-- Witness for C1: all-failure and three-failures-then-success
environments at `max_retries = 5`. -/
theorem C1_network_retry_backoff_witness :
    (generate_content_with_retry "q" [] envAllNetFail 5).2 =
      { attempts := 5, sleeps := [1, 2, 4, 8], reportedHttpErrors := [],
        viaFinalReturn := false, result := .returned call_failed_text [] } ∧
    (generate_content_with_retry "q" [] envThreeFailThenOk 5).2 =
      { attempts := 4, sleeps := [1, 2, 4], reportedHttpErrors := [],
        viaFinalReturn := false, result := .returned "ok" [] } := by
  have h := C1_network_retry_backoff "q" [] envAllNetFail envThreeFailThenOk 5 okBody "ok" []
  constructor
  · have h1 := h.1 (by omega) (fun i _ => rfl)
    rw [h1]
    simp [List.range_succ]
  · exact h.2 (fun i hi => by simp [envThreeFailThenOk, hi]) (by simp [envThreeFailThenOk]) rfl

/-- Witness for C2: an HTTP 500 on the very first attempt. -/
theorem C2_http_error_no_retry_witness :
    (generate_content_with_retry "q" [] envHttp500 5).2 =
      { attempts := 1, sleeps := [], reportedHttpErrors := [500],
        viaFinalReturn := true, result := .returned unknown_failure_text [] } := by
  have h := C2_http_error_no_retry "q" [] envHttp500 5 0 500 (by omega)
    (fun i hi => by omega) rfl
  simpa using h

/-- Claim C3: an HTTP 429 is classified as the quota kind
`ResourceExhausted` and, in the dispatch loop, is reported immediately
with no retry and no backoff sleep; HTTP 401 and 403 are classified as
the auth kinds `Unauthenticated` and `PermissionDenied`, never as the
network kind.  The classifier is modelled from the spec, since the
SDK-based earlier variants carrying it are not under src/. -/
theorem C3_http_status_classification (env : Nat → Outcome) (max_retries : Nat) :
    classify_http_status 429 = ApiErrorKind.ResourceExhausted ∧
    classify_http_status 401 = ApiErrorKind.Unauthenticated ∧
    classify_http_status 403 = ApiErrorKind.PermissionDenied ∧
    classify_http_status 401 ≠ ApiErrorKind.NetworkError ∧
    classify_http_status 403 ≠ ApiErrorKind.NetworkError ∧
    classify_http_status 429 ≠ ApiErrorKind.NetworkError ∧
    (1 ≤ max_retries → env 0 = .httpError 429 →
      (generate_content_with_retry "" [] env max_retries).2 =
        { attempts := 1, sleeps := [], reportedHttpErrors := [429],
          viaFinalReturn := true, result := .returned unknown_failure_text [] }) := by
  refine ⟨by decide, by decide, by decide, by decide, by decide, by decide, ?_⟩
  intro h1 h0
  show loopGo env 0 max_retries = _
  exact loopGo_httpError env 0 max_retries 429 h1 h0

/-- Witness for C3: every attempt answers HTTP 429. -/
theorem C3_http_status_classification_witness :
    classify_http_status 429 = ApiErrorKind.ResourceExhausted ∧
    (generate_content_with_retry "" [] envHttp429 5).2 =
      { attempts := 1, sleeps := [], reportedHttpErrors := [429],
        viaFinalReturn := true, result := .returned unknown_failure_text [] } := by
  have h := C3_http_status_classification envHttp429 5
  exact ⟨h.1, h.2.2.2.2.2.2 (by omega) rfl⟩

/-- Claim C8: the outbound payload contains exactly the history
converted entry-by-entry to role/parts objects, the new user turn
appended after them, the google_search tool declaration, and the fixed
system instruction. -/
theorem C8_payload_shape (prompt : String) (history : List Message)
    (env : Nat → Outcome) (max_retries : Nat) :
    (generate_content_with_retry prompt history env max_retries).1 =
      { contents := history.map (fun m => { role := m.role, parts := [m.content] }) ++
          [{ role := "user", parts := [prompt] }],
        tools := [Tool.google_search],
        systemInstruction := [SYSTEM_PROMPT] } := by
  show build_payload prompt history = _
  unfold build_payload build_contents
  rw [foldl_append_convert]
  simp

/-- `parse_response` on a non-empty candidates list, unfolded. -/
theorem parse_response_cons (c : Candidate) (rest : List Candidate) :
    parse_response { candidates := some (c :: rest) } =
      (if c.truthy then
        match (partsAfterDefaults c).head? with
        | none => .error .indexError
        | some p =>
          match p.text with
          | some t =>
            if !t.isEmpty then .ok (t, extract_sources c) else .ok (fallback_text, [])
          | none => .ok (fallback_text, [])
      else .ok (fallback_text, [])) := rfl

/-- `partsAfterDefaults` when `content` and `parts` are present. -/
theorem partsAfterDefaults_some (ct : Content) (gm : Option GroundingMetadata)
    (l : List RespPart) (h : ct.parts = some l) :
    partsAfterDefaults { content := some ct, groundingMetadata := gm } = l := by
  have e : partsAfterDefaults { content := some ct, groundingMetadata := gm } =
      match ct.parts with
      | none => [{ text := none }]
      | some l => l := rfl
  rw [e, h]

/-- `parse_response` when the first candidate has content with a
non-empty parts list whose first part carries non-empty text. -/
theorem parse_response_truthy_text (ct : Content) (gm : Option GroundingMetadata)
    (rest : List Candidate) (p : RespPart) (ps : List RespPart) (t : String)
    (hp : ct.parts = some (p :: ps)) (ht : p.text = some t) (htne : t ≠ "") :
    parse_response
        { candidates := some ({ content := some ct, groundingMetadata := gm } :: rest) } =
      .ok (t, extract_sources { content := some ct, groundingMetadata := gm }) := by
  rw [parse_response_cons]
  have htruthy : Candidate.truthy { content := some ct, groundingMetadata := gm } = true := by
    simp [Candidate.truthy]
  have htE : t.isEmpty = false := by
    rcases h : t.isEmpty with _ | _
    · rfl
    · exact absurd ((String.isEmpty_iff t).mp h) htne
  rw [htruthy, partsAfterDefaults_some ct gm (p :: ps) hp]
  simp [ht, htE]

/-- Claim C4: with more than 5 prior messages, exactly the last 5 are
passed as history to the dispatcher, and the outbound contents are those
5 conversions followed by the current user prompt as the last entry. -/
theorem C4_history_truncation (prior : List Message) (prompt : String)
    (env : Nat → Outcome) :
    5 < prior.length →
    (history_for_api (prior ++ [{ role := "user", content := prompt }]) =
        prior.drop (prior.length - 5) ∧
     (history_for_api (prior ++ [{ role := "user", content := prompt }])).length = 5 ∧
     (generate_content_with_retry prompt
        (history_for_api (prior ++ [{ role := "user", content := prompt }]))
        env 5).1.contents =
      (prior.drop (prior.length - 5)).map
          (fun m => { role := m.role, parts := [m.content] }) ++
        [{ role := "user", parts := [prompt] }]) := by
  intro h5
  have hrec : history_for_api (prior ++ [{ role := "user", content := prompt }]) =
      prior.drop (prior.length - 5) := by
    rw [history_for_api_eq]
    unfold recent_messages
    simp
  refine ⟨hrec, ?_, ?_⟩
  · rw [hrec, List.length_drop]
    omega
  · show (build_payload prompt _).contents = _
    unfold build_payload build_contents
    rw [foldl_append_convert, hrec]
    simp

/-- Witness for C4: a six-entry prior transcript. -/
theorem C4_history_truncation_witness :
    5 < sixMessages.length ∧
    (history_for_api (sixMessages ++ [{ role := "user", content := "p" }]) =
        sixMessages.drop (sixMessages.length - 5) ∧
     (history_for_api (sixMessages ++ [{ role := "user", content := "p" }])).length = 5 ∧
     (generate_content_with_retry "p"
        (history_for_api (sixMessages ++ [{ role := "user", content := "p" }]))
        envAllNetFail 5).1.contents =
      (sixMessages.drop (sixMessages.length - 5)).map
          (fun m => { role := m.role, parts := [m.content] }) ++
        [{ role := "user", parts := ["p"] }]) :=
  ⟨by decide, C4_history_truncation sixMessages "p" envAllNetFail (by decide)⟩

/-- Claim C5: on a successful response whose first candidate carries
text, the returned sources are exactly the grounding attributions that
have both a (truthy) uri and a (truthy) title, mapped to uri/title pairs
in order; attributions missing either are excluded, and a candidate with
no grounding metadata yields `sources = []`. -/
theorem C5_sources_extraction (gm : GroundingMetadata) (attrs : List Attribution)
    (ct : Content) (p : RespPart) (ps : List RespPart) (t : String)
    (rest : List Candidate) :
    ct.parts = some (p :: ps) → p.text = some t → t ≠ "" →
    ((gm.groundingAttributions = some attrs →
      parse_response
          { candidates := some ({ content := some ct, groundingMetadata := some gm } :: rest) } =
        .ok (t, (attrs.filter attrGood).map attrToSource)) ∧
     parse_response
          { candidates := some ({ content := some ct, groundingMetadata := none } :: rest) } =
        .ok (t, [])) := by
  intro hp ht htne
  constructor
  · intro hattrs
    rw [parse_response_truthy_text ct (some gm) rest p ps t hp ht htne]
    have he : extract_sources { content := some ct, groundingMetadata := some gm } =
        (attrs.filter attrGood).map attrToSource := by
      have e : extract_sources { content := some ct, groundingMetadata := some gm } =
          match gm.groundingAttributions with
          | none => []
          | some attrs =>
            if attrs.isEmpty then []
            else (attrs.filter attrGood).map attrToSource := rfl
      rw [e, hattrs]
      rcases hA : attrs.isEmpty with _ | _
      · simp [hA]
      · have hnil : attrs = [] := List.isEmpty_iff.mp (by simp [hA])
        simp [hnil]
    rw [he]
  · rw [parse_response_truthy_text ct none rest p ps t hp ht htne]
    rfl

/-- Witness for C5: of four attributions (complete, no title, no uri,
no web), only the complete one is kept; and the no-metadata candidate
yields empty sources. -/
theorem C5_sources_extraction_witness :
    parse_response { candidates := some [candWithAttrs] } =
      .ok ("ok", [{ uri := "http://a", title := "A" }]) ∧
    parse_response { candidates := some [candNoGm] } = .ok ("ok", []) := by
  have h := C5_sources_extraction gmFour fourAttrs okContent
    { text := some "ok" } [] "ok" [] rfl rfl (by decide)
  constructor
  · exact (h.1 rfl).trans (by rfl)
  · exact h.2

/-- Claim C6: on HTTP success the first candidate's first content part
is parsed as the answer text; with missing candidates, missing content,
missing parts, or missing/empty text, the literal fallback string is
returned with empty sources. -/
theorem C6_parse_fallback (ct : Content) (p : RespPart) (ps : List RespPart)
    (rest : List Candidate) (gm : Option GroundingMetadata) (t : String) :
    parse_response { candidates := none } = .ok (fallback_text, []) ∧
    parse_response
        { candidates := some ({ content := none, groundingMetadata := gm } :: rest) } =
      .ok (fallback_text, []) ∧
    (ct.parts = none →
      parse_response
          { candidates := some ({ content := some ct, groundingMetadata := gm } :: rest) } =
        .ok (fallback_text, [])) ∧
    (ct.parts = some (p :: ps) → (p.text = none ∨ p.text = some "") →
      parse_response
          { candidates := some ({ content := some ct, groundingMetadata := gm } :: rest) } =
        .ok (fallback_text, [])) ∧
    (ct.parts = some (p :: ps) → p.text = some t → t ≠ "" →
      parse_response
          { candidates := some ({ content := some ct, groundingMetadata := gm } :: rest) } =
        .ok (t, extract_sources { content := some ct, groundingMetadata := gm })) := by
  refine ⟨rfl, ?_, ?_, ?_, ?_⟩
  · cases gm <;> rfl
  · intro hp
    rw [parse_response_cons]
    have e : partsAfterDefaults { content := some ct, groundingMetadata := gm } =
        match ct.parts with
        | none => [{ text := none }]
        | some l => l := rfl
    rw [e, hp]
    simp [Candidate.truthy]
  · intro hp hpt
    rw [parse_response_cons, partsAfterDefaults_some ct gm (p :: ps) hp]
    have hemp : "".isEmpty = true := rfl
    rcases hpt with h0 | h0 <;> simp [Candidate.truthy, h0, hemp]
  · exact fun hp ht htne => parse_response_truthy_text ct gm rest p ps t hp ht htne

/-- Witness for C6: all fallback shapes evaluated concretely, plus the
positive case on `okBody`. -/
theorem C6_parse_fallback_witness :
    parse_response { candidates := none } = .ok (fallback_text, []) ∧
    parse_response
        { candidates := some ({ content := none, groundingMetadata := none } :: []) } =
      .ok (fallback_text, []) ∧
    parse_response
        { candidates := some ({ content := some { parts := none },
                                groundingMetadata := none } :: []) } =
      .ok (fallback_text, []) ∧
    parse_response
        { candidates := some ({ content := some { parts := some [{ text := some "" }] },
                                groundingMetadata := none } :: []) } =
      .ok (fallback_text, []) ∧
    parse_response
        { candidates := some ({ content := some { parts := some [{ text := some "ok" }] },
                                groundingMetadata := none } :: []) } =
      .ok ("ok", extract_sources { content := some { parts := some [{ text := some "ok" }] },
                                   groundingMetadata := none }) := by
  refine ⟨(C6_parse_fallback { parts := none } { text := none } [] [] none "").1,
    (C6_parse_fallback { parts := none } { text := none } [] [] none "").2.1,
    (C6_parse_fallback { parts := none } { text := none } [] [] none "").2.2.1 rfl,
    (C6_parse_fallback { parts := some [{ text := some "" }] } { text := some "" }
      [] [] none "").2.2.2.1 rfl (Or.inr rfl),
    (C6_parse_fallback { parts := some [{ text := some "ok" }] } { text := some "ok" }
      [] [] none "ok").2.2.2.2 rfl rfl (by decide)⟩

/-- When at least one attempt remains and no attempt raises an HTTP
status error, the loop never reaches the final return. -/
theorem loopGo_no_http_no_final (env : Nat → Outcome) :
    ∀ (remaining attempt : Nat), 1 ≤ remaining →
    (∀ i, i < remaining → ∀ status, env (attempt + i) ≠ .httpError status) →
    (loopGo env attempt remaining).viaFinalReturn = false := by
  intro remaining
  induction remaining with
  | zero => intro attempt h _; omega
  | succ r ih =>
    intro attempt _ henv
    rcases hE : env attempt with _ | status | body
    · rw [loopGo, hE]
      by_cases hr : r = 0
      · simp [hr]
      · have hrec := ih (attempt + 1) (by omega) (fun i hi status => by
          have := henv (i + 1) (by omega) status
          simpa [Nat.add_assoc, Nat.add_comm 1 i] using this)
        simp [hr, hrec]
    · exact absurd (by simpa using hE) (henv 0 (by omega) status)
    · rw [loopGo, hE]
      rcases hp : parse_response body with e | v
      · simp [hp]
      · rcases v with ⟨t, s⟩
        simp [hp]

/-- Claim C7 is false on the code: with an HTTP 500 on the first attempt
and `max_retries = 5`, the HTTPError handler breaks out of the loop and
control reaches the final return, yielding the literal unknown-failure
result — the fallback branch is reachable. -/
theorem C7_counterexample :
    (generate_content_with_retry "hi" [] envHttp500 5).2.viaFinalReturn = true ∧
    (generate_content_with_retry "hi" [] envHttp500 5).2.result =
      .returned unknown_failure_text [] := ⟨rfl, rfl⟩

/-- Claim C7 (amended): the final unknown-failure return is reached only
when the loop exits via the HTTP-error break (or `max_retries = 0`); for
every execution with `max_retries ≥ 1` in which no attempt raises an
HTTP status error, the function returns from inside the loop on success,
parse-fallback, or retry exhaustion, never through the final return. -/
theorem C7_final_return_unreachable_without_http_error (prompt : String)
    (history : List Message) (env : Nat → Outcome) (max_retries : Nat) :
    1 ≤ max_retries →
    (∀ i, i < max_retries → ∀ status, env i ≠ .httpError status) →
    (generate_content_with_retry prompt history env max_retries).2.viaFinalReturn = false := by
  intro h1 henv
  show (loopGo env 0 max_retries).viaFinalReturn = false
  exact loopGo_no_http_no_final env max_retries 0 h1 (fun i hi status => by
    simpa using henv i hi status)

/-- Witness for the amended C7: three attempts, all network failures. -/
theorem C7_final_return_unreachable_witness :
    (generate_content_with_retry "q" [] envAllNetFail 3).2.viaFinalReturn = false :=
  C7_final_return_unreachable_without_http_error "q" [] envAllNetFail 3 (by omega)
    (fun _ _ _ h => Outcome.noConfusion h)

/-- Claim C9: parsing is not total over well-formed bodies.  A present
but empty `candidates` list, or a present but empty `content.parts` list
on the first candidate, makes the `[0]` indexing raise `IndexError`;
parsing completes exactly when neither holds; and in the dispatch loop
such an exception propagates uncaught instead of producing a returned
fallback result. -/
theorem C9_parse_not_total (r : ApiResponse) (prompt : String)
    (history : List Message) (env : Nat → Outcome) (max_retries : Nat)
    (body : ApiResponse) (e : PyError) :
    parse_response { candidates := some [] } = .error PyError.indexError ∧
    (∀ gm rest, parse_response
        { candidates := some ({ content := some { parts := some [] },
                                groundingMetadata := gm } :: rest) } =
      .error PyError.indexError) ∧
    ((parse_response r).isOk = true ↔
      ¬(r.candidates = some [] ∨
        ∃ ct gm rest,
          r.candidates = some ({ content := some ct, groundingMetadata := gm } :: rest) ∧
          ct.parts = some [])) ∧
    (1 ≤ max_retries → env 0 = .success body → parse_response body = .error e →
      (generate_content_with_retry prompt history env max_retries).2.result = .raised e) := by
  refine ⟨rfl, ?_, ?_, ?_⟩
  · intro gm rest
    rw [parse_response_cons, partsAfterDefaults_some { parts := some [] } gm [] rfl]
    simp [Candidate.truthy]
  · rcases r with ⟨cands⟩
    rcases cands with _ | cands
    · simp [parse_response, Except.isOk, Except.toBool]
    · rcases cands with _ | ⟨c, rest⟩
      · simp [parse_response, Except.isOk, Except.toBool]
      · rcases c with ⟨cnt, gmo⟩
        rcases cnt with _ | ct
        · rcases gmo with _ | gm
          · simp [parse_response, Candidate.truthy, Except.isOk, Except.toBool]
          · simp [parse_response, Candidate.truthy, partsAfterDefaults, Except.isOk, Except.toBool]
        · rcases ct with ⟨pl⟩
          rcases pl with _ | pl
          · simp [parse_response, Candidate.truthy, partsAfterDefaults, Except.isOk, Except.toBool]
          · rcases pl with _ | ⟨p, ps⟩
            · simp [parse_response, Candidate.truthy, partsAfterDefaults, Except.isOk, Except.toBool]
            · rcases hpt : p.text with _ | t
              · simp [parse_response, Candidate.truthy, partsAfterDefaults, hpt, Except.isOk, Except.toBool]
              · rcases ht : t.isEmpty with _ | _ <;>
                  simp [parse_response, Candidate.truthy, partsAfterDefaults, hpt, ht,
                    Except.isOk, Except.toBool]
  · intro h1 h0 hp
    have h := loopGo_raise env 0 max_retries body e h1 h0 hp
    show (loopGo env 0 max_retries).result = _
    rw [h]

/-- Witness for C9 at concrete inputs. -/
theorem C9_parse_not_total_witness :
    parse_response { candidates := some [] } = .error PyError.indexError ∧
    parse_response
        { candidates := some [{ content := some { parts := some [] },
                                groundingMetadata := none }] } =
      .error PyError.indexError ∧
    ((parse_response okBody).isOk = true ↔
      ¬(okBody.candidates = some [] ∨
        ∃ ct gm rest,
          okBody.candidates = some ({ content := some ct, groundingMetadata := gm } :: rest) ∧
          ct.parts = some [])) ∧
    (generate_content_with_retry "q" [] envEmptyCandidates 5).2.result =
      .raised PyError.indexError := by
  have h := C9_parse_not_total okBody "q" [] envEmptyCandidates 5 emptyCandidatesBody
    PyError.indexError
  exact ⟨h.1, h.2.1 none [], h.2.2.1, h.2.2.2 (by omega) rfl rfl⟩

/-- Claim C10: when the dispatcher returns, one user interaction appends
exactly two entries to the transcript — the user message with the
entered prompt, then the assistant message storing the response text
with the source links appended when sources is non-empty — and modifies
no earlier entry. -/
theorem C10_transcript_append (messages : List Message) (prompt : String)
    (env : Nat → Outcome) (t : String) (s : List Source) :
    (chat_step messages prompt env).2.result = .returned t s →
    ((chat_step messages prompt env).1 =
      messages ++ [{ role := "user", content := prompt },
                   { role := "assistant", content := full_response_content t s }] ∧
     (chat_step messages prompt env).1.length = messages.length + 2 ∧
     (s = [] → full_response_content t s = t) ∧
     (s ≠ [] → full_response_content t s = t ++ source_links s)) := by
  intro h
  rcases hres : (generate_content_with_retry prompt
      (history_for_api (messages ++ [{ role := "user", content := prompt }])) env 5).2.result
    with ⟨t0, s0⟩ | e
  · simp only [chat_step, hres, RunResult.returned.injEq] at h ⊢
    obtain ⟨rfl, rfl⟩ := h
    refine ⟨by simp, by simp, fun hs => by simp [full_response_content, hs], fun hs => ?_⟩
    have hne : s0.isEmpty = false := by
      rcases hE : s0.isEmpty with _ | _
      · rfl
      · exact absurd (List.isEmpty_iff.mp hE) hs
    simp [full_response_content, hne]
  · simp only [chat_step, hres] at h
    exact absurd h (by simp)

/-- Witness for C10: empty transcript, prompt "hi", immediate success. -/
theorem C10_transcript_append_witness :
    (chat_step [] "hi" envOk).2.result = .returned "ok" [] ∧
    ((chat_step [] "hi" envOk).1 =
      [] ++ [{ role := "user", content := "hi" },
             { role := "assistant", content := full_response_content "ok" [] }] ∧
     (chat_step [] "hi" envOk).1.length = ([] : List Message).length + 2 ∧
     (([] : List Source) = [] → full_response_content "ok" [] = "ok") ∧
     (([] : List Source) ≠ [] → full_response_content "ok" [] = "ok" ++ source_links [])) :=
  ⟨rfl, C10_transcript_append [] "hi" envOk "ok" [] rfl⟩
